import Mathlib

/-!
Shallow embedding of the godown-report pipeline core
(src/main.py and src/script.py) and verification of its
specification claims.

Tables are modelled as ordered column labels plus rows; a row is an
association list from column label to the cell's string value.
Pandas date parsing (`pd.to_datetime(..., errors="coerce")`) is
abstracted as a total function `String → Option Date` passed to the
filters (`none` models `NaT`, i.e. an unparseable value).
The run's reference time is modelled by its UTC calendar date.
String primitives (lower/upper-casing, trimming, substring search,
splitting) are defined over the character list of a string so that every
definition is kernel-computable.
-/

set_option autoImplicit false

namespace Godown

/-- Character-level model of Python `str.lower()` (ASCII, which covers the
column labels involved). -/
def lowerChars (s : String) : List Char :=
  s.data.map Char.toLower

/-- Character-level model of Python `str.upper()` (ASCII). -/
def upperStr (s : String) : String :=
  ⟨s.data.map Char.toUpper⟩

/-- Whether `pat` is a prefix of the character list (second argument). -/
def leadsWith : List Char → List Char → Bool
  | [], _ => true
  | _ :: _, [] => false
  | p :: ps, a :: as => p == a && leadsWith ps as

/-- Whether `pat` occurs as a contiguous substring of the character list,
Python's `pat in s`. -/
def hasSub (pat : List Char) : List Char → Bool
  | [] => pat.isEmpty
  | a :: as => leadsWith pat (a :: as) || hasSub pat as

/-- Character-level model of Python `str.strip()`. -/
def stripStr (s : String) : String :=
  ⟨((s.data.dropWhile Char.isWhitespace).reverse.dropWhile Char.isWhitespace).reverse⟩

/-- Split a character list on a separator character; models
`str.split(sep)` for a one-character separator. -/
def splitChar (sep : Char) : List Char → List (List Char)
  | [] => [[]]
  | a :: as =>
    if a == sep then [] :: splitChar sep as
    else
      match splitChar sep as with
      | [] => [[a]]
      | g :: gs => (a :: g) :: gs

/-- The full text split into lines (used to inspect rendered reports);
models Python `text.split("\n")`. -/
def linesOf (s : String) : List String :=
  (splitChar '\n' s.data).map (fun cs => ⟨cs⟩)

/-- Parse a non-empty all-digit character list as a natural number. -/
def natFromChars (cs : List Char) : Option Nat :=
  if cs.isEmpty then none
  else if cs.all Char.isDigit then
    some (cs.foldl (fun n c => n * 10 + (c.toNat - 48)) 0)
  else none

/-- A row of a parsed table: association list from column label to the
cell's string value, in table-column order. -/
abbrev Row := List (String × String)

/-- A dataframe: ordered column labels plus rows
(`pd.DataFrame` as consumed by the pipeline core). -/
structure Table where
  cols : List String
  rows : List Row
deriving DecidableEq, Repr

/-- Cell lookup with a default, mirroring pandas `row.get(label, default)`
(values are modelled as their rendered strings). -/
def getCell (r : Row) (c : String) (d : String) : String :=
  (List.lookup c r).getD d

/-- Candidate date-column test, `"date" in c.lower()` from
`main.py:115` / `script.py:122`. -/
def containsDate (c : String) : Bool :=
  hasSub "date".data (lowerChars c)

/-- A calendar date, modelling `datetime.date`. -/
structure Date where
  year : Nat
  month : Nat
  day : Nat
deriving DecidableEq, Repr

/-- Rows of `t` whose value in column `c` parses to the target date `d`,
in original row order: models
`parsed = pd.to_datetime(df[c], errors="coerce").dt.date; mask = parsed == tomorrow`
followed by `df[mask]` (`main.py:125-128`, `script.py:128-131`).
The parser `p` abstracts pandas' non-raising best-effort parsing. -/
def colMatches (p : String → Option Date) (d : Date) (t : Table) (c : String) : List Row :=
  t.rows.filter (fun r => p (getCell r c "") == some d)

/-- The shared candidate-column loop of `main.py:123-132` and
`script.py:126-133`: try each candidate date column in order; the first
column with at least one matching row determines the result (its matching
rows under the original column set); if no candidate matches, return the
fallback `fb`. The two variants differ only in `fb`. -/
def tryCols (p : String → Option Date) (d : Date) (t : Table) (fb : Table) :
    List String → Table
  | [] => fb
  | c :: cs =>
    if (colMatches p d t c).isEmpty then tryCols p d t fb cs
    else ⟨t.cols, colMatches p d t c⟩

/-- `filter_tomorrow_rows` from `src/main.py:113-135`. With no candidate
date column the dataframe is returned unchanged; the fallback when no
candidate column matches is `out = pd.DataFrame()` — an empty dataframe
with an empty column set. -/
def filter_tomorrow_rows (p : String → Option Date) (d : Date) (t : Table) : Table :=
  let dateCols := t.cols.filter containsDate
  if dateCols.isEmpty then t
  else tryCols p d t ⟨[], []⟩ dateCols

/-- `collect_tomorrow_rows` from `src/script.py:118-135`. With no candidate
date column, `df.copy()` (the same table by value); the fallback when no
candidate column matches is `pd.DataFrame(columns=df.columns)` — empty
rows under the original column set. -/
def collect_tomorrow_rows (p : String → Option Date) (d : Date) (t : Table) : Table :=
  let dateCols := t.cols.filter containsDate
  if dateCols.isEmpty then t
  else tryCols p d t ⟨t.cols, []⟩ dateCols

/-- A concrete best-effort date parser on ISO `YYYY-MM-DD` strings, used to
instantiate the abstract parser in witnesses; any other shape is
unparseable (`none`, pandas `NaT`). -/
def parseIso (s : String) : Option Date :=
  match (splitChar '-' s.data).map natFromChars with
  | [some y, some m, some d] => some ⟨y, m, d⟩
  | _ => none

/-- Python `"\n".join(lines)` / `" | ".join(parts)`: the parts joined by
the separator. -/
def joinSep (sep : String) : List String → String
  | [] => ""
  | [a] => a
  | a :: b :: rest => a ++ sep ++ joinSep sep (b :: rest)

/-- The `PARTY` field of a row in `format_report`,
`str(row.get("PARTY","")).strip()` (`script.py:165`). -/
def partyOf (r : Row) : String :=
  stripStr (getCell r "PARTY" "")

/-- The `MATERIAL` field of a row in `format_report` (`script.py:166`). -/
def materialOf (r : Row) : String :=
  stripStr (getCell r "MATERIAL" "")

/-- The quantity field of a row in `format_report`,
`str(row.get("APROX QTY", row.get("QTY", row.get("QUANTITY","")))).strip()`
(`script.py:167`). -/
def qtyOf (r : Row) : String :=
  stripStr (getCell r "APROX QTY" (getCell r "QTY" (getCell r "QUANTITY" "")))

/-- The vehicle field of a row in `format_report`,
`str(row.get("VEHICLE NO", row.get("VEHICLE",""))).strip()`
(`script.py:168`). -/
def vehicleOf (r : Row) : String :=
  stripStr (getCell r "VEHICLE NO" (getCell r "VEHICLE" ""))

/-- One bullet row of the compiled report,
`line = f"• \x7bparty\x7d — \x7bmaterial\x7d — \x7bqty\x7d"` plus
`if vehicle: line += f" — \x7bvehicle\x7d"` (`script.py:169-171`). -/
def bulletLine (r : Row) : String :=
  let line := "• " ++ partyOf r ++ " — " ++ materialOf r ++ " — " ++ qtyOf r
  if vehicleOf r = "" then line else line ++ " — " ++ vehicleOf r

/-- The per-godown loop of `format_report` (`script.py:144-172`): the
section lines produced for each group in insertion order, paired with the
accumulated `total_items` count. An empty group contributes its header and
the literal `"  No items"` line; a non-empty one contributes its header and
one bullet line per row of `df.head(MAX_ROWS)`, each incrementing the
count. (The `cols` list computed at `script.py:150-160` is dead code — the
rendered line only uses `row.get` by label — and is omitted.) -/
def reportBody (m : Nat) : List (String × Table) → List String × Nat
  | [] => ([], 0)
  | g :: gs =>
    if g.2.rows.isEmpty then
      (("\nGODOWN: " ++ upperStr g.1) :: "  No items" :: (reportBody m gs).1,
       (reportBody m gs).2)
    else
      (("\nGODOWN: " ++ upperStr g.1) ::
         ((g.2.rows.take m).map bulletLine ++ (reportBody m gs).1),
       (g.2.rows.take m).length + (reportBody m gs).2)

/-- The 40-hyphen separator `"-"*40` of `format_report`. -/
def dashes40 : String := "----------------------------------------"

/-- `format_report` from `src/script.py:137-175`, with the invocation-time
dependent target date `(datetime.utcnow() + timedelta(days=1)).date().isoformat()`
passed in as `dateStr`. -/
def format_report (m : Nat) (dateStr : String) (compiled : List (String × Table)) : String :=
  joinSep "\n"
    (["NEXT DAY LOADING SUMMARY", "Date: " ++ dateStr, dashes40]
      ++ (reportBody m compiled).1
      ++ ["\n" ++ dashes40,
          "Total items listed: " ++ toString (reportBody m compiled).2])

/-- Gregorian leap-year test (`calendar` semantics used by `datetime`). -/
def isLeap (y : Nat) : Bool :=
  (y % 4 == 0 && y % 100 != 0) || y % 400 == 0

/-- Number of days in a month of the Gregorian calendar. -/
def daysInMonth (y m : Nat) : Nat :=
  if m == 2 then (if isLeap y then 29 else 28)
  else if m == 4 || m == 6 || m == 9 || m == 11 then 30
  else 31

/-- The calendar successor of a date: models
`(timestamp + timedelta(days=1)).date()` for a timestamp whose date part is
`d` (adding one day to a timestamp preserves the time of day, so the
resulting date is the calendar successor). -/
def nextDay (d : Date) : Date :=
  if d.day < daysInMonth d.year d.month then ⟨d.year, d.month, d.day + 1⟩
  else if d.month < 12 then ⟨d.year, d.month + 1, 1⟩
  else ⟨d.year + 1, 1, 1⟩

/-- Two-digit zero-padded rendering of a month or day number. -/
def pad2 (n : Nat) : String :=
  if n < 10 then "0" ++ toString n else toString n

/-- Four-digit zero-padded rendering of a year number. -/
def pad4 (n : Nat) : String :=
  if n < 10 then "000" ++ toString n
  else if n < 100 then "00" ++ toString n
  else if n < 1000 then "0" ++ toString n
  else toString n

/-- `date.isoformat()`: `YYYY-MM-DD`. -/
def isoOf (d : Date) : String :=
  pad4 d.year ++ "-" ++ pad2 d.month ++ "-" ++ pad2 d.day

/-- `format_report` as actually invoked: the date line is computed from the
invocation time (`script.py:141`), modelled by the UTC calendar date `now`
of the run. -/
def reportAt (now : Date) (m : Nat) (compiled : List (String × Table)) : String :=
  format_report m (isoOf (nextDay now)) compiled

/-- The preferred display-column names of `build_table_text`
(`main.py:140`). -/
def preferredNames : List String :=
  ["PARTY", "MATERIAL", "APROX QTY", "APPROX QTY", "QTY", "QUANTITY",
   "RATE / KG", "RATE", "VEHICLE NO", "VEHICLE", "ACTUAL QTY", "STATUS",
   "PAYMENT", "DATE"]

/-- The first column-selection loop of `build_table_text` (`main.py:143-146`):
for each preferred name in order, append every existing column whose
trimmed upper-cased label equals it. -/
def prefPass (existing : List String) : List String :=
  preferredNames.foldl
    (fun cols name => cols ++ existing.filter (fun col => upperStr (stripStr col) == name))
    []

/-- The second column-selection loop of `build_table_text` (`main.py:148-150`):
append each remaining column not already chosen. -/
def addMissing (cols : List String) : List String → List String
  | [] => cols
  | c :: cs => if cols.contains c then addMissing cols cs else addMissing (cols ++ [c]) cs

/-- The display-column order of `build_table_text`: preferred names first,
then all remaining columns in table order. -/
def chooseCols (existing : List String) : List String :=
  addMissing (prefPass existing) existing

/-- Python `s.ljust(w)`: left-justify by padding with spaces on the right
up to width `w` (unchanged if already at least `w` long). -/
def ljust (s : String) (w : Nat) : String :=
  s ++ ⟨List.replicate (w - s.length) ' '⟩

/-- The largest display length found in column `i` of the row matrix
(`max((len(row[i]) for row in rows), default=0)`, `main.py:162`). -/
def colMax (rows : List (List String)) (i : Nat) : Nat :=
  (rows.map (fun row => (row.getD i "").length)).foldr max 0

/-- `col_widths[i]` of `build_table_text` (`main.py:162`): the maximum of
the header length and the longest cell in the column. -/
def widthAt (headers : List String) (rows : List (List String)) (i : Nat) : Nat :=
  max (headers.getD i "").length (colMax rows i)

/-- `header_line` of `build_table_text` (`main.py:164`): headers
left-justified to their column widths, joined with `" | "`. -/
def headerLine (headers : List String) (rows : List (List String)) : String :=
  joinSep " | "
    ((List.range headers.length).map
      (fun i => ljust (headers.getD i "") (widthAt headers rows i)))

/-- `sep_line` of `build_table_text` (`main.py:165`): runs of hyphens of
each column width, joined with `"-+-"`. -/
def sepLine (headers : List String) (rows : List (List String)) : String :=
  joinSep "-+-"
    ((List.range headers.length).map
      (fun i => (⟨List.replicate (widthAt headers rows i) '-'⟩ : String)))

/-- One data line of `build_table_text` (`main.py:168`): the row's cells
left-justified to their column widths, joined with `" | "`. -/
def dataLine (headers : List String) (rows : List (List String)) (row : List String) : String :=
  joinSep " | "
    ((List.range headers.length).map
      (fun i => ljust (row.getD i "") (widthAt headers rows i)))

/-- `build_table_text` from `src/main.py:137-174`, with the
invocation-time dependent date of the title line passed in as `dateStr`
and `MAX_ROWS` as `maxRows`. Cell values are modelled as their rendered
strings (`str(r.get(c, ""))`, with NaN cells already rendered to `""`). -/
def build_table_text (maxRows : Nat) (dateStr : String) (t : Table) : String :=
  let cols := chooseCols t.cols
  if t.rows.isEmpty then "No items scheduled for loading tomorrow."
  else
    let rows := (t.rows.take maxRows).map (fun r => cols.map (fun c => getCell r c ""))
    let tableText := "```\n" ++ headerLine cols rows ++ "\n" ++ sepLine cols rows ++ "\n"
        ++ joinSep "\n" (rows.map (dataLine cols rows)) ++ "\n```"
    let footer :=
      if t.rows.length > maxRows then
        "\n(Showing first " ++ toString maxRows ++ " of " ++ toString t.rows.length ++ " rows)\n"
      else ""
    "Loading schedule for " ++ dateStr ++ "\n\n" ++ tableText ++ footer

/-- Concrete table with one candidate date column and no matching row. -/
def tNoMatch : Table := ⟨["DATE"], [[("DATE", "soon")]]⟩

/-- Concrete table with two candidate date columns where only the second
matches the target date 2024-06-02. -/
def tTwoDates : Table :=
  ⟨["SHIP DATE", "ORDER DATE", "PARTY"],
   [[("SHIP DATE", "2024-07-01"), ("ORDER DATE", "2024-06-02"), ("PARTY", "A")],
    [("SHIP DATE", "2024-07-02"), ("ORDER DATE", "2024-06-03"), ("PARTY", "B")]]⟩

/-- Concrete single-row table used for the fixed-width rendering claims. -/
def tAcme : Table :=
  ⟨["PARTY", "MATERIAL", "QTY"],
   [[("PARTY", "Acme"), ("MATERIAL", "Steel"), ("QTY", "10")]]⟩

/-- Concrete group with 5 rows, for the ceiling scenario of C3. -/
def t5 : Table :=
  ⟨["PARTY"],
   [[("PARTY", "P1")], [("PARTY", "P2")], [("PARTY", "P3")],
    [("PARTY", "P4")], [("PARTY", "P5")]]⟩

theorem tryCols_rows_congr (p : String → Option Date) (d : Date) (t : Table)
    (fb1 fb2 : Table) (h : fb1.rows = fb2.rows) :
    ∀ l, (tryCols p d t fb1 l).rows = (tryCols p d t fb2 l).rows := by
  intro l
  induction l with
  | nil => simpa [tryCols] using h
  | cons c cs ih =>
    by_cases hc : (colMatches p d t c).isEmpty
    · simpa [tryCols, hc] using ih
    · simp [tryCols, hc]

theorem tryCols_of_no_match (p : String → Option Date) (d : Date) (t : Table) (fb : Table) :
    ∀ l, (∀ c ∈ l, colMatches p d t c = []) → tryCols p d t fb l = fb := by
  intro l
  induction l with
  | nil => intro _; rfl
  | cons c cs ih =>
    intro h
    have hc : colMatches p d t c = [] := h c (List.mem_cons_self _ _)
    have hrest := ih (fun c' hc' => h c' (List.mem_cons_of_mem _ hc'))
    simp [tryCols, hc, hrest]

theorem tryCols_found (p : String → Option Date) (d : Date) (t : Table) (fb : Table) :
    ∀ (l : List String) (c₀ : String),
      l.find? (fun c => !(colMatches p d t c).isEmpty) = some c₀ →
      tryCols p d t fb l = ⟨t.cols, colMatches p d t c₀⟩ := by
  intro l
  induction l with
  | nil => intro c₀ h; simp [List.find?] at h
  | cons c cs ih =>
    intro c₀ h
    by_cases hc : (colMatches p d t c).isEmpty
    · rw [List.find?_cons_of_neg _ (by simp [hc])] at h
      simpa [tryCols, hc] using ih c₀ h
    · rw [List.find?_cons_of_pos _ (by simp [hc])] at h
      cases h
      simp [tryCols, hc]

/-- C1: for every normalized table whose candidate date columns (labels
containing "date" case-insensitively, in table-column order) include at
least one column with a row matching the target date, both date-filter
variants return exactly the matching rows of the first such column — a
sublist of the original rows, hence in original row order — under the
original column set; candidate columns that yield zero matches are passed
over, and the result is fully determined by the first matching candidate,
so later candidates never influence it. -/
theorem c1_first_matching_column (p : String → Option Date) (d : Date) (t : Table)
    (c₀ : String)
    (h : (t.cols.filter containsDate).find? (fun c => !(colMatches p d t c).isEmpty)
          = some c₀) :
    filter_tomorrow_rows p d t = ⟨t.cols, colMatches p d t c₀⟩ ∧
    collect_tomorrow_rows p d t = ⟨t.cols, colMatches p d t c₀⟩ ∧
    (colMatches p d t c₀).Sublist t.rows ∧
    colMatches p d t c₀ ≠ [] := by
  have hne : (t.cols.filter containsDate).isEmpty = false := by
    cases hl : t.cols.filter containsDate
    · rw [hl] at h; simp [List.find?] at h
    · simp
  have hmatch : colMatches p d t c₀ ≠ [] := by
    have hp := List.find?_some h
    simpa using hp
  refine ⟨?_, ?_, List.filter_sublist _, hmatch⟩
  · simp only [filter_tomorrow_rows, hne, Bool.false_eq_true, if_false]
    exact tryCols_found p d t _ _ c₀ h
  · simp only [collect_tomorrow_rows, hne, Bool.false_eq_true, if_false]
    exact tryCols_found p d t _ _ c₀ h

/-- C1 witness: on `tTwoDates` the first candidate column `SHIP DATE`
yields zero matches for 2024-06-02, so the filter proceeds to
`ORDER DATE` and returns its single matching row. -/
theorem c1_first_matching_column_witness :
    ((tTwoDates.cols.filter containsDate).find?
        (fun c => !(colMatches parseIso ⟨2024, 6, 2⟩ tTwoDates c).isEmpty)
      = some "ORDER DATE") ∧
    (filter_tomorrow_rows parseIso ⟨2024, 6, 2⟩ tTwoDates
        = ⟨tTwoDates.cols, colMatches parseIso ⟨2024, 6, 2⟩ tTwoDates "ORDER DATE"⟩ ∧
     collect_tomorrow_rows parseIso ⟨2024, 6, 2⟩ tTwoDates
        = ⟨tTwoDates.cols, colMatches parseIso ⟨2024, 6, 2⟩ tTwoDates "ORDER DATE"⟩ ∧
     (colMatches parseIso ⟨2024, 6, 2⟩ tTwoDates "ORDER DATE").Sublist tTwoDates.rows ∧
     colMatches parseIso ⟨2024, 6, 2⟩ tTwoDates "ORDER DATE" ≠ []) :=
  ⟨by decide, c1_first_matching_column parseIso ⟨2024, 6, 2⟩ tTwoDates "ORDER DATE" (by decide)⟩

/-- C4 counterexample: `tNoMatch` has a candidate date column and no row
matching 2024-06-02, yet `filter_tomorrow_rows` (src/main.py) returns the
empty dataframe `pd.DataFrame()`, whose column set is empty rather than
equal to the original column set. -/
theorem c4_counterexample :
    (tNoMatch.cols.filter containsDate ≠ []) ∧
    (filter_tomorrow_rows parseIso ⟨2024, 6, 2⟩ tNoMatch).rows = [] ∧
    (filter_tomorrow_rows parseIso ⟨2024, 6, 2⟩ tNoMatch).cols ≠ tNoMatch.cols := by
  refine ⟨by decide, by decide, by decide⟩

/-- C4 amended: if candidate date columns exist but none contains a row
matching the target date, `collect_tomorrow_rows` (src/script.py) returns
an empty table with the original column set, while `filter_tomorrow_rows`
(src/main.py) returns an empty table with an empty column set. -/
theorem c4_amended (p : String → Option Date) (d : Date) (t : Table)
    (h1 : t.cols.filter containsDate ≠ [])
    (h2 : ∀ c ∈ t.cols.filter containsDate, colMatches p d t c = []) :
    collect_tomorrow_rows p d t = ⟨t.cols, []⟩ ∧
    filter_tomorrow_rows p d t = ⟨[], []⟩ := by
  have hne : (t.cols.filter containsDate).isEmpty = false := by
    cases hl : t.cols.filter containsDate
    · exact absurd hl h1
    · simp
  constructor
  · simp only [collect_tomorrow_rows, hne, Bool.false_eq_true, if_false]
    exact tryCols_of_no_match p d t _ _ h2
  · simp only [filter_tomorrow_rows, hne, Bool.false_eq_true, if_false]
    exact tryCols_of_no_match p d t _ _ h2

/-- C4 witness: the amended behaviour at the concrete table `tNoMatch`. -/
theorem c4_amended_witness :
    (tNoMatch.cols.filter containsDate ≠ []) ∧
    (∀ c ∈ tNoMatch.cols.filter containsDate,
       colMatches parseIso ⟨2024, 6, 2⟩ tNoMatch c = []) ∧
    (collect_tomorrow_rows parseIso ⟨2024, 6, 2⟩ tNoMatch = ⟨tNoMatch.cols, []⟩ ∧
     filter_tomorrow_rows parseIso ⟨2024, 6, 2⟩ tNoMatch = ⟨[], []⟩) :=
  ⟨by decide, by decide,
   c4_amended parseIso ⟨2024, 6, 2⟩ tNoMatch (by decide) (by decide)⟩

/-- C6: for every table with no column label containing "date"
(case-insensitively), both date-filter variants return the table
unchanged — same rows, same order, same columns. -/
theorem c6_no_candidate_unchanged (p : String → Option Date) (d : Date) (t : Table)
    (h : t.cols.filter containsDate = []) :
    filter_tomorrow_rows p d t = t ∧ collect_tomorrow_rows p d t = t := by
  constructor <;> simp [filter_tomorrow_rows, collect_tomorrow_rows, h]

/-- C6 witness: a concrete table with no date-like column passes through
both filters unchanged. -/
theorem c6_no_candidate_unchanged_witness :
    ((⟨["PARTY"], [[("PARTY", "Acme")]]⟩ : Table).cols.filter containsDate = []) ∧
    (filter_tomorrow_rows parseIso ⟨2024, 6, 2⟩ ⟨["PARTY"], [[("PARTY", "Acme")]]⟩
        = ⟨["PARTY"], [[("PARTY", "Acme")]]⟩ ∧
     collect_tomorrow_rows parseIso ⟨2024, 6, 2⟩ ⟨["PARTY"], [[("PARTY", "Acme")]]⟩
        = ⟨["PARTY"], [[("PARTY", "Acme")]]⟩) :=
  ⟨by decide, c6_no_candidate_unchanged parseIso ⟨2024, 6, 2⟩ _ (by decide)⟩

/-- C9: date parsing never raises in the model (the parser is a total
function into `Option`), and within a candidate column an unparseable
value (`none`, pandas NaT) makes only its own row a non-match: that row is
excluded from the matching subset while any other row of the same column
whose value parses to the target date is still included. -/
theorem c9_unparseable_row_only (p : String → Option Date) (d : Date) (t : Table)
    (c : String) (r r' : Row)
    (h2 : p (getCell r c "") = none)
    (h3 : r' ∈ t.rows) (h4 : p (getCell r' c "") = some d) :
    r ∉ colMatches p d t c ∧ r' ∈ colMatches p d t c := by
  constructor
  · intro hr
    simp only [colMatches, List.mem_filter] at hr
    simp [h2] at hr
  · simp only [colMatches, List.mem_filter]
    exact ⟨h3, by simp [h4]⟩

/-- C9 witness: in a column holding one unparseable value and one value
equal to the target date, exactly the parseable row is kept. -/
theorem c9_unparseable_row_only_witness :
    (parseIso (getCell [("DATE", "???")] "DATE" "") = none) ∧
    ([("DATE", "2024-06-02")] ∈
        (⟨["DATE"], [[("DATE", "???")], [("DATE", "2024-06-02")]]⟩ : Table).rows) ∧
    (parseIso (getCell [("DATE", "2024-06-02")] "DATE" "") = some ⟨2024, 6, 2⟩) ∧
    ([("DATE", "???")] ∉
        colMatches parseIso ⟨2024, 6, 2⟩
          ⟨["DATE"], [[("DATE", "???")], [("DATE", "2024-06-02")]]⟩ "DATE" ∧
     [("DATE", "2024-06-02")] ∈
        colMatches parseIso ⟨2024, 6, 2⟩
          ⟨["DATE"], [[("DATE", "???")], [("DATE", "2024-06-02")]]⟩ "DATE") :=
  ⟨by decide, by decide, by decide,
   c9_unparseable_row_only parseIso ⟨2024, 6, 2⟩ _ "DATE" _ _
     (by decide) (by decide) (by decide)⟩

/-- C10 counterexample: on `tNoMatch` (candidate column present, no match)
the two variants disagree — `filter_tomorrow_rows` returns a table with an
empty column set while `collect_tomorrow_rows` keeps the original
columns. -/
theorem c10_counterexample :
    filter_tomorrow_rows parseIso ⟨2024, 6, 2⟩ tNoMatch
      ≠ collect_tomorrow_rows parseIso ⟨2024, 6, 2⟩ tNoMatch := by decide

/-- C10 amended: for every table and fixed target date the two variants
return identical rows in identical order (their results differ at most in
the column set, and only when candidate date columns exist but none
matches). -/
theorem c10_amended (p : String → Option Date) (d : Date) (t : Table) :
    (filter_tomorrow_rows p d t).rows = (collect_tomorrow_rows p d t).rows := by
  cases hl : (t.cols.filter containsDate).isEmpty
  · simp only [filter_tomorrow_rows, collect_tomorrow_rows, hl, Bool.false_eq_true, if_false]
    exact tryCols_rows_congr p d t ⟨[], []⟩ ⟨t.cols, []⟩ rfl _
  · simp [filter_tomorrow_rows, collect_tomorrow_rows, hl]

theorem joinSep_cons_cons (sep a b : String) (l : List String) :
    joinSep sep (a :: b :: l) = a ++ sep ++ joinSep sep (b :: l) := rfl

theorem joinSep_append_single (sep x : String) :
    ∀ l, l ≠ [] → joinSep sep (l ++ [x]) = joinSep sep l ++ sep ++ x := by
  intro l
  induction l with
  | nil => intro h; exact absurd rfl h
  | cons a l ih =>
    intro _
    cases l with
    | nil => simp [joinSep]
    | cons b l2 =>
      rw [show (a :: b :: l2) ++ [x] = a :: ((b :: l2) ++ [x]) from rfl,
          show ((b :: l2) ++ [x]) = b :: (l2 ++ [x]) from rfl,
          joinSep_cons_cons,
          show (b :: (l2 ++ [x])) = (b :: l2) ++ [x] from rfl,
          ih (by simp)]
      simp [joinSep_cons_cons, String.append_assoc]

theorem reportBody_append (m : Nat) :
    ∀ l1 l2, reportBody m (l1 ++ l2)
      = ((reportBody m l1).1 ++ (reportBody m l2).1,
         (reportBody m l1).2 + (reportBody m l2).2) := by
  intro l1
  induction l1 with
  | nil => intro l2; simp [reportBody]
  | cons g gs ih =>
    intro l2
    by_cases hg : g.2.rows.isEmpty
    · simp [reportBody, hg, ih l2]
    · simp [reportBody, hg, ih l2, Nat.add_assoc]

theorem reportBody_total (m : Nat) :
    ∀ c, (reportBody m c).2 = (c.map (fun g => min g.2.rows.length m)).sum := by
  intro c
  induction c with
  | nil => rfl
  | cons g gs ih =>
    by_cases hg : g.2.rows.isEmpty
    · have hr : g.2.rows = [] := by simpa using hg
      simp [reportBody, hg, ih, hr]
    · simp [reportBody, hg, ih, List.length_take, Nat.min_comm]

/-- C2 counterexample: rendering the same GroupedReport at two different
invocation times produces different bytes — the date line embeds the
invocation-time-derived target date (`script.py:141`). -/
theorem c2_counterexample :
    reportAt ⟨2024, 6, 1⟩ 200 [("a", ⟨["PARTY"], [[("PARTY", "Acme")]]⟩)]
      ≠ reportAt ⟨2024, 6, 2⟩ 200 [("a", ⟨["PARTY"], [[("PARTY", "Acme")]]⟩)] := by decide

/-- C2 amended: rendering is deterministic in its explicit inputs — two
invocations whose reference times derive the same target date produce
byte-identical output for the same GroupedReport and configuration; it is
not invariant under arbitrary invocation times, since the date line
changes with the derived target date. -/
theorem c2_amended (t1 t2 : Date) (m : Nat) (c : List (String × Table))
    (h : nextDay t1 = nextDay t2) :
    reportAt t1 m c = reportAt t2 m c := by
  unfold reportAt
  rw [h]

/-- C2 witness: the amended determinism at a concrete invocation date and
GroupedReport. -/
theorem c2_amended_witness :
    nextDay ⟨2024, 6, 1⟩ = nextDay ⟨2024, 6, 1⟩ ∧
    reportAt ⟨2024, 6, 1⟩ 200 [("a", ⟨["PARTY"], [[("PARTY", "Acme")]]⟩)]
      = reportAt ⟨2024, 6, 1⟩ 200 [("a", ⟨["PARTY"], [[("PARTY", "Acme")]]⟩)] :=
  ⟨rfl, c2_amended ⟨2024, 6, 1⟩ ⟨2024, 6, 1⟩ 200 _ rfl⟩

/-- C3: the rendered report ends with a total line whose count equals the
sum over all groups of `min(number of rows, ceiling)` (`total_items` is
incremented once per row of `df.head(MAX_ROWS)`, `script.py:162-163`, and
empty groups are skipped); moreover every non-empty group renders exactly
`min(number of rows, ceiling)` bullet lines after its header, so rows
beyond the ceiling are omitted from both the displayed lines and the
total — a group with 5 rows under ceiling 2 contributes exactly 2 lines
and 2 to the total. -/
theorem c3_total_is_sum_of_mins (m : Nat) (dateStr : String)
    (compiled : List (String × Table)) :
    (∃ s, format_report m dateStr compiled
      = s ++ "\n" ++ ("Total items listed: "
          ++ toString ((compiled.map (fun g => min g.2.rows.length m)).sum))) ∧
    (∀ (g : String × Table) (gs1 gs2 : List (String × Table)),
      compiled = gs1 ++ g :: gs2 → g.2.rows.isEmpty = false →
      (reportBody m compiled).1
        = (reportBody m gs1).1
          ++ ("\nGODOWN: " ++ upperStr g.1)
            :: ((g.2.rows.take m).map bulletLine ++ (reportBody m gs2).1)
      ∧ ((g.2.rows.take m).map bulletLine).length = min g.2.rows.length m) := by
  constructor
  · refine ⟨joinSep "\n" (["NEXT DAY LOADING SUMMARY", "Date: " ++ dateStr, dashes40]
        ++ (reportBody m compiled).1 ++ ["\n" ++ dashes40]), ?_⟩
    unfold format_report
    rw [← reportBody_total m compiled]
    rw [show ["NEXT DAY LOADING SUMMARY", "Date: " ++ dateStr, dashes40]
          ++ (reportBody m compiled).1
          ++ ["\n" ++ dashes40, "Total items listed: " ++ toString (reportBody m compiled).2]
        = (["NEXT DAY LOADING SUMMARY", "Date: " ++ dateStr, dashes40]
          ++ (reportBody m compiled).1 ++ ["\n" ++ dashes40])
            ++ ["Total items listed: " ++ toString (reportBody m compiled).2] from by simp]
    rw [joinSep_append_single _ _ _ (by simp)]
  · intro g gs1 gs2 hsplit hg
    subst hsplit
    rw [reportBody_append]
    constructor
    · simp [reportBody, hg]
    · simp [List.length_take, Nat.min_comm]

/-- C3 witness: under ceiling 2 a group with 5 rows renders exactly 2
bullet lines and the total line reads 2. -/
theorem c3_total_is_sum_of_mins_witness :
    ([(("g1" : String), t5)] = [] ++ ("g1", t5) :: []) ∧
    (("g1", t5).2.rows.isEmpty = false) ∧
    ((reportBody 2 [(("g1" : String), t5)]).1
        = (reportBody 2 ([] : List (String × Table))).1
          ++ ("\nGODOWN: " ++ upperStr "g1")
            :: ((t5.rows.take 2).map bulletLine
                ++ (reportBody 2 ([] : List (String × Table))).1)
      ∧ ((t5.rows.take 2).map bulletLine).length = min t5.rows.length 2) :=
  ⟨rfl, by decide,
   (c3_total_is_sum_of_mins 2 "2024-06-02" [("g1", t5)]).2
     ("g1", t5) [] [] rfl (by decide)⟩

/-- C7 counterexample: an empty group renders the two-space-indented line
`"  No items"`; the exact line `"No items"` appears nowhere in the
report. -/
theorem c7_counterexample :
    linesOf (format_report 200 "2024-06-02" [("a", ⟨["PARTY"], []⟩)])
      = ["NEXT DAY LOADING SUMMARY", "Date: 2024-06-02", dashes40, "",
         "GODOWN: A", "  No items", "", dashes40, "Total items listed: 0"] ∧
    "No items" ∉ linesOf (format_report 200 "2024-06-02" [("a", ⟨["PARTY"], []⟩)]) :=
  ⟨by decide, by decide⟩

/-- C7 amended: wherever it appears in the GroupedReport, a group with an
empty row sequence renders exactly the line `"  No items"` (two-space
indented) after its header in its section, and contributes 0 to the final
total count. -/
theorem c7_amended (m : Nat) (g : String × Table) (gs1 gs2 : List (String × Table))
    (h : g.2.rows = []) :
    (reportBody m (gs1 ++ g :: gs2)).1
      = (reportBody m gs1).1
        ++ ("\nGODOWN: " ++ upperStr g.1) :: "  No items" :: (reportBody m gs2).1
    ∧ (reportBody m (gs1 ++ g :: gs2)).2 = (reportBody m gs1).2 + (reportBody m gs2).2 := by
  have hg : g.2.rows.isEmpty = true := by simp [h]
  rw [reportBody_append]
  constructor
  · simp [reportBody, hg]
  · simp [reportBody, hg]

/-- C7 witness: the amended rendering of an empty group at a concrete
GroupedReport position. -/
theorem c7_amended_witness :
    (("a", (⟨["PARTY"], []⟩ : Table)).2.rows = []) ∧
    ((reportBody 200 ([] ++ ("a", (⟨["PARTY"], []⟩ : Table)) :: [])).1
        = (reportBody 200 []).1
          ++ ("\nGODOWN: " ++ upperStr "a") :: "  No items" :: (reportBody 200 []).1
     ∧ (reportBody 200 ([] ++ ("a", (⟨["PARTY"], []⟩ : Table)) :: [])).2
        = (reportBody 200 []).2 + (reportBody 200 []).2) :=
  ⟨rfl, c7_amended 200 ("a", ⟨["PARTY"], []⟩) [] [] rfl⟩

/-- C8 counterexample: a row whose quantity field is blank still renders
its `" — "` separator, leaving a dangling separator at the end of the
bullet line — only the vehicle field is conditionally omitted. -/
theorem c8_counterexample :
    bulletLine [("PARTY", "Acme"), ("MATERIAL", "Steel"), ("QTY", "")]
      = "• Acme — Steel — " ∧
    "• Acme — Steel — " ≠ "• Acme — Steel" :=
  ⟨by decide, by decide⟩

/-- C8 amended: every row renders as `• party — material — qty`, with the
party, material and quantity fields always present together with their
`" — "` separators (even when blank); only the vehicle field is optional —
appended with a further `" — "` exactly when non-blank, so a blank vehicle
leaves no dangling separator. -/
theorem c8_amended (r : Row) :
    (vehicleOf r = "" →
      bulletLine r = "• " ++ partyOf r ++ " — " ++ materialOf r ++ " — " ++ qtyOf r) ∧
    (vehicleOf r ≠ "" →
      bulletLine r
        = "• " ++ partyOf r ++ " — " ++ materialOf r ++ " — " ++ qtyOf r
            ++ " — " ++ vehicleOf r) := by
  constructor
  · intro h; simp [bulletLine, h]
  · intro h; simp [bulletLine, h]

/-- C8 witness: the amended bullet layout at a row without and a row with
a vehicle value. -/
theorem c8_amended_witness :
    (vehicleOf [("PARTY", "Acme"), ("MATERIAL", "Steel"), ("QTY", "10")] = "" ∧
     bulletLine [("PARTY", "Acme"), ("MATERIAL", "Steel"), ("QTY", "10")]
       = "• " ++ partyOf [("PARTY", "Acme"), ("MATERIAL", "Steel"), ("QTY", "10")]
           ++ " — " ++ materialOf [("PARTY", "Acme"), ("MATERIAL", "Steel"), ("QTY", "10")]
           ++ " — " ++ qtyOf [("PARTY", "Acme"), ("MATERIAL", "Steel"), ("QTY", "10")]) ∧
    (vehicleOf [("PARTY", "Acme"), ("VEHICLE", "KA01")] ≠ "" ∧
     bulletLine [("PARTY", "Acme"), ("VEHICLE", "KA01")]
       = "• " ++ partyOf [("PARTY", "Acme"), ("VEHICLE", "KA01")]
           ++ " — " ++ materialOf [("PARTY", "Acme"), ("VEHICLE", "KA01")]
           ++ " — " ++ qtyOf [("PARTY", "Acme"), ("VEHICLE", "KA01")]
           ++ " — " ++ vehicleOf [("PARTY", "Acme"), ("VEHICLE", "KA01")]) :=
  ⟨⟨by decide, (c8_amended _).1 (by decide)⟩,
   ⟨by decide, (c8_amended _).2 (by decide)⟩⟩

theorem ljust_length (s : String) (w : Nat) : (ljust s w).length = max w s.length := by
  unfold ljust
  rw [String.length_append]
  have h : (⟨List.replicate (w - s.length) ' '⟩ : String).length = w - s.length := by
    show (List.replicate (w - s.length) ' ').length = w - s.length
    exact List.length_replicate _ _
  rw [h]
  omega

theorem le_foldr_max {l : List Nat} {a : Nat} (h : a ∈ l) : a ≤ l.foldr max 0 := by
  induction l with
  | nil => cases h
  | cons b l ih =>
    rw [List.foldr_cons]
    rcases List.mem_cons.mp h with rfl | h2
    · exact le_max_left _ _
    · exact le_trans (ih h2) (le_max_right _ _)

theorem le_colMax (rows : List (List String)) (row : List String)
    (h : row ∈ rows) (i : Nat) : (row.getD i "").length ≤ colMax rows i :=
  le_foldr_max (List.mem_map_of_mem _ h)

theorem joinSep_length_cons (sep : String) :
    ∀ (l : List String) (a : String),
      (joinSep sep (a :: l)).length
        = a.length + (l.map String.length).sum + sep.length * l.length := by
  intro l
  induction l with
  | nil => intro a; simp [joinSep]
  | cons b l2 ih =>
    intro a
    rw [joinSep_cons_cons, String.length_append, String.length_append, ih b]
    simp only [List.map_cons, List.sum_cons, List.length_cons]
    ring

theorem joinSep_length (sep : String) :
    ∀ l : List String,
      (joinSep sep l).length = (l.map String.length).sum + sep.length * (l.length - 1)
  | [] => by simp [joinSep]
  | a :: l => by
    rw [joinSep_length_cons]
    simp [Nat.add_assoc]

/-- C5 counterexample: on the row
`(PARTY:"Acme", MATERIAL:"Steel", QTY:"10")` the fixed-width table of
`build_table_text` renders `"Acme  | Steel    | 10 "` — values
left-justified to widths computed from the data and joined with a
`" | "` delimiter — and the claimed delimiter-free line
`"Acme      Steel     10   "` appears nowhere in the output. -/
theorem c5_counterexample :
    "Acme  | Steel    | 10 " ∈ linesOf (build_table_text 80 "2024-06-02" tAcme) ∧
    "Acme      Steel     10   " ∉ linesOf (build_table_text 80 "2024-06-02" tAcme) :=
  ⟨by decide, by decide⟩

/-- C5 amended: in `build_table_text` each field value is left-justified
(space-padded on the right) to its column's computed width — the maximum
of the header length and the longest displayed value of that column, so
over-length values are never truncated — and the padded values are joined
with the `" | "` delimiter; consequently every data line rendered from the
displayed row matrix has exactly the same length as the header line. The
example row renders as `"Acme  | Steel    | 10 "`. -/
theorem c5_amended (headers : List String) (rows : List (List String))
    (row : List String) (h : row ∈ rows) :
    (dataLine headers rows row).length = (headerLine headers rows).length := by
  unfold dataLine headerLine
  rw [joinSep_length, joinSep_length]
  congr 1
  · refine congrArg List.sum ?_
    rw [List.map_map, List.map_map]
    apply List.map_congr_left
    intro i hi
    simp only [Function.comp_apply]
    rw [ljust_length, ljust_length]
    have hd : (row.getD i "").length ≤ widthAt headers rows i :=
      le_trans (le_colMax rows row h i) (le_max_right _ _)
    have hh : (headers.getD i "").length ≤ widthAt headers rows i := le_max_left _ _
    rw [max_eq_left hd, max_eq_left hh]
  · simp

/-- C5 witness: the data/header alignment at the concrete displayed row
matrix of `tAcme`. -/
theorem c5_amended_witness :
    (["Acme", "Steel", "10"] ∈ [["Acme", "Steel", "10"]]) ∧
    (dataLine ["PARTY", "MATERIAL", "QTY"] [["Acme", "Steel", "10"]]
        ["Acme", "Steel", "10"]).length
      = (headerLine ["PARTY", "MATERIAL", "QTY"] [["Acme", "Steel", "10"]]).length :=
  ⟨by decide,
   c5_amended ["PARTY", "MATERIAL", "QTY"] [["Acme", "Steel", "10"]]
     ["Acme", "Steel", "10"] (by decide)⟩

end Godown
